import Mathlib

/-
Verification development for the iterdict module (src/src/iterdict/__init__.py).
The module defines a single class, IterDict(dict), meant to be lazily populated
from an iterator of (key, value) pairs.  The embedding below translates each
method of the class statement by statement; keys and values are generic types
with decidable equality, the backing dict is an association list in insertion
order without duplicate keys, the source iterator is the list of pairs it has
not yet produced, and the instance attribute dictionary is modelled by the list
of attribute names it holds (needed because IterDict.clean deletes and creates
instance attributes).
-/

namespace Iterdict

/-- Runtime errors the module can raise.  syntaxError stands for the
compile-time error CPython reports for the statement at line 77 of the source
(`break` outside any loop); in real CPython that error aborts the import of the
whole module, so nothing in it ever runs — the embedding localises the failure
at the statement so the well-formed functions around it stay analysable. -/
inductive PyError
| syntaxError
| attributeError
| assertionError
| keyError
deriving DecidableEq, Repr

/-- Attribute names the module ever reads, writes or deletes on an instance or
on the built-in dict.  iteratorMangled is the name-mangled instance attribute
_IterDict__iterator that `self.__iterator` denotes inside the class body;
iteritem is the misspelt name looked up at line 87 (dict provides iteritems,
not iteritem). -/
inductive AttrName
| iteratorMangled
| slurp
| clean
| iteritem
| iteritems
| iterkeys
| itervalues
| popAttr
| getitemDunder
| setitemDunder
| delitemDunder
| containsDunder
| reprDunder
| updateAttr
| initDunder
deriving DecidableEq, Repr

/-- Attribute lookup on the built-in dict type: which of the names above dict
provides.  The class-level names of IterDict (slurp, clean) and the mangled
instance attribute are not dict attributes, and neither is the misspelling
iteritem. -/
def dictProvides : AttrName → Bool
| .iteratorMangled => false
| .slurp => false
| .clean => false
| .iteritem => false
| .iteritems => true
| .iterkeys => true
| .itervalues => true
| .popAttr => true
| .getitemDunder => true
| .setitemDunder => true
| .delitemDunder => true
| .containsDunder => true
| .reprDunder => true
| .updateAttr => true
| .initDunder => true

/-- Membership test of the backing dict: whether a key is present. -/
def dictHasKey {K V : Type} [DecidableEq K] : List (K × V) → K → Bool
| [], _ => false
| p :: t, k => if p.1 = k then true else dictHasKey t k

/-- Lookup in the backing dict: the value stored at a key, if any. -/
def dictGet? {K V : Type} [DecidableEq K] : List (K × V) → K → Option V
| [], _ => none
| p :: t, k => if p.1 = k then some p.2 else dictGet? t k

/-- dict.__setitem__: if the key is present its value is replaced in place,
otherwise the pair is appended.  IterDict does not override __setitem__, so
every `self[k] = v` in the source is exactly this operation. -/
def dictSet {K V : Type} [DecidableEq K] (s : List (K × V)) (k : K) (v : V) :
    List (K × V) :=
  if dictHasKey s k then s.map (fun p => if p.1 = k then (k, v) else p)
  else s ++ [(k, v)]

/-- dict.__delitem__ on a present key: the pair with that key is removed. -/
def dictDel {K V : Type} [DecidableEq K] (s : List (K × V)) (k : K) :
    List (K × V) :=
  s.filter (fun p => if p.1 = k then false else true)

/-- dict.update called with keyword pairs (line 69, `self.update(**kwargs)`):
sets each pair in order.  dict.update writes straight into the dict and pulls
nothing from any iterator. -/
def dictUpdate {K V : Type} [DecidableEq K] (s : List (K × V))
    (kw : List (K × V)) : List (K × V) :=
  kw.foldl (fun acc p => dictSet acc p.1 p.2) s

/-- State of an IterDict instance: the backing dict (IterDict subclasses dict),
the source iterator (none models `self.__iterator is None`; some l models a
live iterator whose remaining output is l — note a live iterator may be empty,
e.g. when the caller passed a literal empty list), and the names in the
instance attribute dictionary. -/
structure IterDict (K V : Type) where
  store : List (K × V)
  iterator : Option (List (K × V))
  attrs : List AttrName
deriving DecidableEq, Repr

/-- The instance attribute dictionary of a freshly constructed IterDict:
__init__ assigns only self.__iterator (mangled to _IterDict__iterator).  The
methods slurp, clean, iteritems, pop and the rest live on the class, not on
the instance. -/
def initAttrs : List AttrName := [AttrName.iteratorMangled]

/-- IterDict.__init__ (lines 62-69): dict.__init__() leaves the backing dict
empty; self.__iterator starts as None; a nonempty args tuple must have length
exactly one (the assert at line 67 — its AssertionError is the construction
contract violation, the spec's ConfigurationError) and then args[0] becomes
the iterator; finally the keyword pairs are applied by dict.update.  No
statement of __init__ consumes anything from the source. -/
def init {K V : Type} [DecidableEq K] (args : List (List (K × V)))
    (kwargs : List (K × V)) : Except PyError (IterDict K V) :=
  match args with
  | [] => .ok ⟨dictUpdate [] kwargs, none, initAttrs⟩
  | [src] => .ok ⟨dictUpdate [] kwargs, some src, initAttrs⟩
  | _ => .error .assertionError

/-- Deleting an attribute through an instance (`del self.name`) removes the
name from the instance attribute dictionary; when the name is not an instance
attribute — in particular when it only exists on the class, as slurp and clean
do — CPython raises AttributeError. -/
def delInstanceAttr (attrs : List AttrName) (a : AttrName) :
    Except PyError (List AttrName) :=
  if a ∈ attrs then .ok (attrs.filter (fun b => if b = a then false else true))
  else .error .attributeError

/-- IterDict.clean (lines 112-125).  Its first statement, `del self.slurp`
(line 114), tries to delete the instance attribute slurp; slurp is a method on
the class and a fresh instance's attribute dictionary holds only the mangled
iterator name, so the deletion raises AttributeError and none of the rest of
clean runs.  The remaining statements are nevertheless embedded faithfully for
the (unreachable) case where both deletions succeed: `del self.clean`
(line 115), `self.__iterator = None` (line 117), and the bindings of the
direct dict methods as instance attributes (lines 118-125). -/
def clean {K V : Type} (d : IterDict K V) : Except PyError (IterDict K V) :=
  match delInstanceAttr d.attrs .slurp with
  | .error e => .error e
  | .ok a1 =>
    match delInstanceAttr a1 .clean with
    | .error e => .error e
    | .ok a2 =>
      .ok ⟨d.store, none,
        a2 ++ [AttrName.getitemDunder, AttrName.delitemDunder,
               AttrName.containsDunder, AttrName.iteritems, AttrName.iterkeys,
               AttrName.itervalues, AttrName.popAttr, AttrName.reprDunder]⟩

/-- IterDict.slurp (lines 71-83), embedded statement by statement.  The drain
target is `some k` for a key and `none` for the module-level sentinel NONE
(line 48, a unique object equal to no key).  Lines 73-75: if the iterator is
None, call clean and return True.  Lines 76-77 read `if target in self:
break`; `break` outside any loop is a compile-time SyntaxError in Python, so
control can never pass this statement (in real CPython the whole module fails
to import because of it) — the embedding reports the error here.  Note that
even read as an ordinary membership pre-check the condition `target in self`
dispatches to IterDict.__contains__, which calls slurp again with the same
arguments, so it could never produce an answer.  The loop of lines 78-83 is
embedded separately as slurpLoop. -/
def slurp {K V : Type} [DecidableEq K] (d : IterDict K V) (target : Option K) :
    Except PyError (Bool × IterDict K V) :=
  match d.iterator with
  | none =>
    match clean d with
    | .error e => .error e
    | .ok d2 => .ok (true, d2)
  | some _ => .error .syntaxError

/-- The drain loop of slurp (lines 78-83), taken on its own since the
statement before it is a syntax error: for each (k, v) pulled from the
iterator, execute `self[k] = v` — dict.__setitem__, unconditionally, with no
guard on present or previously deleted keys — and return True if k equals the
target; when the iterator is exhausted without a match, call clean and return
False.  Arguments: the target, the instance attribute names, the remaining
source output, and the backing dict. -/
def slurpLoop {K V : Type} [DecidableEq K] (target : Option K)
    (attrs : List AttrName) :
    List (K × V) → List (K × V) → Except PyError (Bool × IterDict K V)
| [], store =>
  match clean (⟨store, some [], attrs⟩ : IterDict K V) with
  | .error e => .error e
  | .ok d2 => .ok (false, d2)
| (k, v) :: rest, store =>
  let store2 := dictSet store k v
  if some k = target then .ok (true, ⟨store2, some rest, attrs⟩)
  else slurpLoop target attrs rest store2

/-- __contains__ (lines 104-106): `key in d` returns self.slurp(key), the
drain invoked with the key as target. -/
def containsKey {K V : Type} [DecidableEq K] (d : IterDict K V) (k : K) :
    Except PyError (Bool × IterDict K V) :=
  slurp d (some k)

/-- __getitem__ = slurpfirst(dict.__getitem__) (line 109).  slurpfirst
(lines 41-46) wraps a dict method so that the call runs `self.slurp()` first —
with no argument, so the drain target is the NONE sentinel rather than the key
being looked up — and then invokes the wrapped dict method, here
dict.__getitem__, which raises KeyError when the key is absent. -/
def getitem {K V : Type} [DecidableEq K] (d : IterDict K V) (k : K) :
    Except PyError (V × IterDict K V) :=
  match slurp d none with
  | .error e => .error e
  | .ok (_, d2) =>
    match dictGet? d2.store k with
    | some v => .ok (v, d2)
    | none => .error .keyError

/-- __delitem__ = slurpfirst(dict.__delitem__) (line 110): slurp with no
target, then dict.__delitem__, which removes the key or raises KeyError. -/
def delitem {K V : Type} [DecidableEq K] (d : IterDict K V) (k : K) :
    Except PyError (IterDict K V) :=
  match slurp d none with
  | .error e => .error e
  | .ok (_, d2) =>
    if dictHasKey d2.store k then .ok ⟨dictDel d2.store k, d2.iterator, d2.attrs⟩
    else .error .keyError

/-- pop = slurpfirst(dict.pop) (line 108): slurp with no target, then
dict.pop(key[, default]): remove and return the value when the key is present;
otherwise return the default when one was given, else raise KeyError. -/
def popKey {K V : Type} [DecidableEq K] (d : IterDict K V) (k : K)
    (dflt : Option V) : Except PyError (V × IterDict K V) :=
  match slurp d none with
  | .error e => .error e
  | .ok (_, d2) =>
    match dictGet? d2.store k with
    | some v => .ok (v, ⟨dictDel d2.store k, d2.iterator, d2.attrs⟩)
    | none =>
      match dflt with
      | some v => .ok (v, d2)
      | none => .error .keyError

/-- Subscript assignment: the class body of IterDict (lines 50-131) defines no
__setitem__, so `d[k] = v` dispatches to dict.__setitem__, which writes the
pair into the backing dict and touches nothing else — in particular it reads
nothing from the source iterator and no other attribute. -/
def setitem {K V : Type} [DecidableEq K] (d : IterDict K V) (k : K) (v : V) :
    IterDict K V :=
  ⟨dictSet d.store k v, d.iterator, d.attrs⟩

/-- IterDict.iteritems (lines 85-92).  The first loop (line 87) iterates
`super(IterDict, self).iteritem()`: an attribute lookup of the name iteritem
on dict, which fails with AttributeError the moment the generator is advanced,
because dict provides iteritems and no iteritem.  Both yield statements
(lines 88 and 92) moreover yield the bare key k, never the (k, v) pair.  The
embedding returns the sequence of yielded elements together with the final
state; the reachable outcome is the AttributeError. -/
def iteritems {K V : Type} [DecidableEq K] (d : IterDict K V) :
    Except PyError (List K × IterDict K V) :=
  if dictProvides .iteritem then
    match d.iterator with
    | none => .ok (d.store.map Prod.fst, d)
    | some src =>
      match iteritemsTail d.attrs src d.store with
      | (ks, d2) => .ok (d.store.map Prod.fst ++ ks, d2)
  else .error .attributeError
where
  /-- The second loop of iteritems (lines 89-92), on its own: for each pair
  pulled from the live iterator, run `self[k] = v` and yield the bare key k
  (not the pair). -/
  iteritemsTail (attrs : List AttrName) :
      List (K × V) → List (K × V) → List K × IterDict K V
  | [], store => ([], ⟨store, some [], attrs⟩)
  | (k, v) :: rest, store =>
    match iteritemsTail attrs rest (dictSet store k v) with
    | (ks, d2) => (k :: ks, d2)

/- Supporting lemmas about the backing dict operations. -/

/-- Looking up the written key in the overwrite branch of dictSet finds the
new value exactly when the key was present. -/
theorem dictGet_map_self {K V : Type} [DecidableEq K] (s : List (K × V))
    (k : K) (v : V) :
    dictGet? (s.map (fun p => if p.1 = k then (k, v) else p)) k
      = if dictHasKey s k then some v else none := by
  induction s with
  | nil => simp [dictGet?, dictHasKey]
  | cons p t ih =>
    obtain ⟨a, b⟩ := p
    by_cases h : a = k
    · subst h
      simp [dictGet?, dictHasKey]
    · simp [dictGet?, dictHasKey, h, ih]

/-- The overwrite branch of dictSet leaves lookups of other keys unchanged. -/
theorem dictGet_map_other {K V : Type} [DecidableEq K] (s : List (K × V))
    (k k2 : K) (v : V) (h : k2 ≠ k) :
    dictGet? (s.map (fun p => if p.1 = k then (k, v) else p)) k2
      = dictGet? s k2 := by
  induction s with
  | nil => simp [dictGet?]
  | cons p t ih =>
    obtain ⟨a, b⟩ := p
    by_cases hak : a = k
    · subst hak
      have hne : a ≠ k2 := fun hc => h (hc.symm)
      simp [dictGet?, hne, ih]
    · simp [dictGet?, hak, ih]

/-- Appending a fresh pair makes its key found when it was absent before. -/
theorem dictGet_append_self {K V : Type} [DecidableEq K] (s : List (K × V))
    (k : K) (v : V) (h : dictHasKey s k = false) :
    dictGet? (s ++ [(k, v)]) k = some v := by
  induction s with
  | nil => simp [dictGet?]
  | cons p t ih =>
    obtain ⟨a, b⟩ := p
    by_cases hak : a = k
    · simp [dictHasKey, hak] at h
    · simp [dictHasKey, hak] at h
      simp [dictGet?, hak, ih h]

/-- Appending a pair leaves lookups of other keys unchanged. -/
theorem dictGet_append_other {K V : Type} [DecidableEq K] (s : List (K × V))
    (k k2 : K) (v : V) (h : k2 ≠ k) :
    dictGet? (s ++ [(k, v)]) k2 = dictGet? s k2 := by
  induction s with
  | nil =>
    simp [dictGet?]
    exact fun hc => h hc.symm
  | cons p t ih =>
    obtain ⟨a, b⟩ := p
    by_cases hak : a = k2
    · simp [dictGet?, hak]
    · simp [dictGet?, hak, ih]

/-- After dictSet, the written key holds the written value. -/
theorem dictGet_dictSet_self {K V : Type} [DecidableEq K] (s : List (K × V))
    (k : K) (v : V) : dictGet? (dictSet s k v) k = some v := by
  by_cases h : dictHasKey s k
  · simp [dictSet, h, dictGet_map_self]
  · simp at h
    simp [dictSet, h, dictGet_append_self s k v h]

/-- dictSet leaves every other key's lookup unchanged. -/
theorem dictGet_dictSet_other {K V : Type} [DecidableEq K] (s : List (K × V))
    (k k2 : K) (v : V) (h : k2 ≠ k) :
    dictGet? (dictSet s k v) k2 = dictGet? s k2 := by
  by_cases hk : dictHasKey s k
  · simp [dictSet, hk, dictGet_map_other s k k2 v h]
  · simp at hk
    simp [dictSet, hk, dictGet_append_other s k k2 v h]

/- Claim theorems. -/

/-- C1 (first writer wins) is refuted by the code: the drain loop of slurp
runs `self[k] = v` with no presence guard (line 79), so a later pair from the
source whose key is already stored overwrites the stored value.  Draining the
source [(5,1),(5,2),(7,9)] for target key 7 ends with key 5 bound to 2, the
second occurrence, where the claim (and the class docstring at lines 57-60)
requires the first value 1 to be kept.  Independently, the module as written
cannot even import: line 77 is `break` outside any loop, a SyntaxError. -/
theorem claim_C1_overwrite :
    slurpLoop (some 7) initAttrs [(5, 1), (5, 2), (7, 9)]
        ([] : List (Nat × Nat))
      = .ok (true, ⟨[(5, 2), (7, 9)], some [], initAttrs⟩)
    ∧ dictGet? [(5, 2), (7, 9)] 5 = some 2 :=
  ⟨rfl, rfl⟩

/-- C2 (sticky deletion) is refuted by the code: deleting key 5 empties the
backing dict, yet the drain loop has no memory of deletions and no presence
guard, so draining the remaining source [(5,1)] re-inserts the deleted key
and reports it found — contains(5) would be true where the claim (and the
class docstring, lines 57-60: a deleted key is never re-created) demands
false.  Moreover the deletion scenario of the claim cannot even run as
written: __delitem__ drains first through slurp, whose line 77 is a
SyntaxError. -/
theorem claim_C2_reinsert :
    dictDel [(5, 0)] 5 = ([] : List (Nat × Nat))
    ∧ slurpLoop (some 5) initAttrs [(5, 1)] ([] : List (Nat × Nat))
        = .ok (true, ⟨[(5, 1)], some [], initAttrs⟩) :=
  ⟨rfl, rfl⟩

/-- C3 (lazy short-circuit of get) is refuted by the code: on the source
[(1,10),(2,20),(3,30)] a subscript read of key 2 does not return 20 after
consuming two pairs — it raises, because slurpfirst first calls self.slurp()
and slurp's line 77 is a SyntaxError.  The second conjunct shows that even
the drain loop on its own cannot short-circuit a lookup: slurpfirst passes no
target, so the loop compares every key against the NONE sentinel, consumes
the whole source, and then dies in clean — with an infinite source the read
would never return. -/
theorem claim_C3_get_not_lazy :
    getitem (⟨[], some [(1, 10), (2, 20), (3, 30)], initAttrs⟩ :
        IterDict Nat Nat) 2
      = .error .syntaxError
    ∧ slurpLoop (none : Option Nat) initAttrs [(1, 10), (2, 20), (3, 30)]
        ([] : List (Nat × Nat))
      = .error .attributeError :=
  ⟨rfl, rfl⟩

/-- C4 (drain on an exhausted source returns false) is refuted by the code:
when the iterator is None, slurp calls clean, whose first statement
`del self.slurp` raises AttributeError, so the call raises instead of
returning — for a key target and for the no-target sentinel alike.  And the
value the source would return is the literal True of line 75, not false: the
third conjunct runs the same branch on a hypothetical instance whose
attribute dictionary does contain slurp and clean, letting clean succeed,
and the result is true. -/
theorem claim_C4_exhausted_drain :
    slurp (⟨[], none, initAttrs⟩ : IterDict Nat Nat) (some 9)
      = .error .attributeError
    ∧ slurp (⟨[], none, initAttrs⟩ : IterDict Nat Nat) none
      = .error .attributeError
    ∧ slurp (⟨[], none,
          [AttrName.slurp, AttrName.clean, AttrName.iteratorMangled]⟩ :
          IterDict Nat Nat) (some 9)
      = .ok (true, ⟨[], none,
          [AttrName.iteratorMangled, AttrName.getitemDunder,
           AttrName.delitemDunder, AttrName.containsDunder,
           AttrName.iteritems, AttrName.iterkeys, AttrName.itervalues,
           AttrName.popAttr, AttrName.reprDunder]⟩) :=
  ⟨rfl, rfl, rfl⟩

/-- C5 (membership pre-check) is refuted by the code: construction with an
empty list source and the explicit pair (8,5) succeeds and stores the pair,
but both membership tests of Scenario D raise instead of answering true and
false — the pre-check of slurp is written `if target in self: break`
(lines 76-77), and `break` outside any loop is a compile-time SyntaxError
(besides, `target in self` dispatches back to __contains__, which calls slurp
again with the same arguments). -/
theorem claim_C5_contains_precheck :
    init [([] : List (Nat × Nat))] [(8, 5)]
      = .ok ⟨[(8, 5)], some [], initAttrs⟩
    ∧ containsKey (⟨[(8, 5)], some [], initAttrs⟩ : IterDict Nat Nat) 8
      = .error .syntaxError
    ∧ containsKey (⟨[(8, 5)], some [], initAttrs⟩ : IterDict Nat Nat) 9
      = .error .syntaxError :=
  ⟨rfl, rfl, rfl⟩

/-- C6 (permanent degrade to a plain mapping) is refuted by the code: the
degrade transition is IterDict.clean, and its first statement
`del self.slurp` (line 114) deletes an attribute that exists only on the
class, never on the instance — the instance attribute dictionary of any
constructed IterDict holds only the mangled iterator name — so clean raises
AttributeError and the degraded plain-mapping state is never reached. -/
theorem claim_C6_degrade_crash :
    clean (⟨[(8, 5)], none, initAttrs⟩ : IterDict Nat Nat)
      = .error .attributeError
    ∧ delInstanceAttr initAttrs AttrName.slurp = .error .attributeError :=
  ⟨rfl, rfl⟩

/-- C7 (items yields the stored pairs then the source pairs) is refuted by
the code: advancing iteritems raises AttributeError at once, because its
first loop asks dict for the attribute iteritem — a misspelling of iteritems
(line 87).  And both of its yield statements produce the bare key, not the
(key, value) pair: run on its own, the second loop over the live source
[(2,20)] stores the pair but yields [2], the key alone (which is also why
iterkeys, which unpacks `for k,v in self.iteritems()`, could never work). -/
theorem claim_C7_iteritems :
    iteritems (⟨[(1, 10)], some [(2, 20)], initAttrs⟩ : IterDict Nat Nat)
      = .error .attributeError
    ∧ iteritems.iteritemsTail initAttrs [(2, 20)] [(1, 10)]
      = ([2], ⟨[(1, 10), (2, 20)], some [], initAttrs⟩) :=
  ⟨rfl, rfl⟩

/-- C8 (construction contract) holds: two or more positional sources trip the
assert at line 67 (the configuration error of the contract), zero or one
positional source is accepted, the keyword pairs are applied to the backing
dict by dict.update during __init__, and the source — stored whole in the
iterator field — has had nothing consumed from it when construction
finishes. -/
theorem claim_C8_construction {K V : Type} [DecidableEq K]
    (s1 s2 : List (K × V)) (rest : List (List (K × V)))
    (kw : List (K × V)) (src : List (K × V)) :
    init (s1 :: s2 :: rest) kw = .error .assertionError
    ∧ init ([] : List (List (K × V))) kw
        = .ok ⟨dictUpdate [] kw, none, initAttrs⟩
    ∧ init [src] kw = .ok ⟨dictUpdate [] kw, some src, initAttrs⟩ :=
  ⟨rfl, rfl, rfl⟩

/-- C9 (missing-key errors) is refuted by the code: pop, subscript read and
delete on an IterDict with no source never raise the missing-key error and
never return the provided default — slurpfirst makes each of them call
self.slurp() first, slurp with iterator None calls clean, and clean raises
AttributeError at `del self.slurp` before the dict operation is reached.
(With a live source they die even earlier, at the SyntaxError of slurp's
line 77.) -/
theorem claim_C9_missing_key :
    popKey (⟨[], none, initAttrs⟩ : IterDict Nat Nat) 4 none
      = .error .attributeError
    ∧ popKey (⟨[], none, initAttrs⟩ : IterDict Nat Nat) 4 (some 7)
      = .error .attributeError
    ∧ getitem (⟨[], none, initAttrs⟩ : IterDict Nat Nat) 4
      = .error .attributeError
    ∧ delitem (⟨[], none, initAttrs⟩ : IterDict Nat Nat) 4
      = .error .attributeError :=
  ⟨rfl, rfl, rfl, rfl⟩

/-- C10 (assignment never drains) holds: IterDict defines no __setitem__, so
subscript assignment is dict.__setitem__ — it leaves the source iterator and
the instance attributes untouched, binds the assigned key to the assigned
value, and leaves the lookup of every other key unchanged. -/
theorem claim_C10_setitem_frame {K V : Type} [DecidableEq K]
    (d : IterDict K V) (k k2 : K) (v : V) :
    (setitem d k v).iterator = d.iterator
    ∧ (setitem d k v).attrs = d.attrs
    ∧ dictGet? (setitem d k v).store k = some v
    ∧ (k2 ≠ k → dictGet? (setitem d k v).store k2 = dictGet? d.store k2) :=
  ⟨rfl, rfl, dictGet_dictSet_self d.store k v,
   fun h => dictGet_dictSet_other d.store k k2 v h⟩

/-- Witness for C10: the frame theorem applied to a concrete state, assigning
30 to key 3 while key 1 is stored and the source still holds (2,20). -/
theorem claim_C10_witness :
    (setitem (⟨[(1, 10)], some [(2, 20)], initAttrs⟩ : IterDict Nat Nat)
        3 30).iterator = some [(2, 20)]
    ∧ (setitem (⟨[(1, 10)], some [(2, 20)], initAttrs⟩ : IterDict Nat Nat)
        3 30).attrs = initAttrs
    ∧ dictGet? (setitem (⟨[(1, 10)], some [(2, 20)], initAttrs⟩ :
        IterDict Nat Nat) 3 30).store 3 = some 30
    ∧ dictGet? (setitem (⟨[(1, 10)], some [(2, 20)], initAttrs⟩ :
        IterDict Nat Nat) 3 30).store 1
      = dictGet? [(1, 10)] 1 := by
  have h := claim_C10_setitem_frame
    (⟨[(1, 10)], some [(2, 20)], initAttrs⟩ : IterDict Nat Nat) 3 1 30
  exact ⟨h.1, h.2.1, h.2.2.1, h.2.2.2 (by decide)⟩

end Iterdict
